import Mathlib

/-
Formal model of src/GoogleOAuth2CLI.js (class GoogleOAuth2CLI) and the
claims of spec.md about it.

The JavaScript is embedded shallowly:
- JavaScript values that can flow through this code are modelled by `JSVal`
  (JSON values plus `undefined`).
- The runtime environment (filesystem calls, JSON.parse) is a record of
  functions `Env`; the repository code is translated on top of it.
- A thrown JavaScript error is modelled by the `JSError` inductive; fallible
  code returns `Except JSError _`.
- Console and readline effects are collected in a `List Effect`.

Semantic facts of JavaScript and Node that the translation relies on, each
standard and version-stable:
- A primitive string is not `instanceof String`; only a boxed String object is.
- An object (such as a boxed String) is always truthy, `null` is falsy.
- The source uses static public class fields (line 27), which require
  Node 12 or later to parse; and since Node 10 the fs path validation
  accepts only a primitive string, a Buffer or a URL as the path argument.
  So `fs.statSync(creds)` at line 92, whose argument there is always a
  boxed String, throws `TypeError ERR_INVALID_ARG_TYPE` before touching the
  filesystem, and lines 92 to 103 — the directory test and the `accessSync`
  test — never execute for any input.
- A class body is strict-mode code, so a destructuring assignment to an
  identifier with no declaration anywhere in scope (here `RedirectURI` at
  line 110 of the source) throws `ReferenceError` once the assignment to it
  is performed; the assignment is reached exactly when the value being
  destructured by `[RedirectURI]` is iterable (an array or a string).
- Reading an absent property (such as `this.RedirectUI` at line 121) yields
  `undefined` and does not throw.
- Calling an absent method (`this.goa2.getNewTokenCLI` at line 124,
  `this.getToken` at line 141) throws a `TypeError`.
-/

/-- A JavaScript value as far as this program can observe one: the JSON
values plus `undefined`. JSON numbers are modelled as integers, which covers
every value this repository reads or writes. -/
inductive JSVal where
  | undefined : JSVal
  | null : JSVal
  | bool (b : Bool) : JSVal
  | num (n : Int) : JSVal
  | str (s : String) : JSVal
  | arr (elems : List JSVal) : JSVal
  | obj (fields : List (String × JSVal)) : JSVal

/-- JavaScript truthiness of a `JSVal`, as used by `if (creds)` and
`if (!this.Token)` in the source. -/
def JSVal.truthy : JSVal → Bool
  | .undefined => false
  | .null => false
  | .bool b => b
  | .num n => n != 0
  | .str s => s != ""
  | .arr _ => true
  | .obj _ => true

/-- Property read `v.name` on a value that is neither `null` nor `undefined`:
an object yields the named field or `undefined`; a primitive yields
`undefined` for every property this program reads. -/
def JSVal.field : JSVal → String → JSVal
  | .obj fields, name =>
      ((fields.find? (fun kv => kv.1 == name)).map (fun kv => kv.2)).getD .undefined
  | _, _ => .undefined

/-- A thrown JavaScript error, by provenance:
`errorThrow` is an explicit `throw new Error(msg)` written in the source;
`fsError` is a Node fs call (named by `op`) throwing on the given path;
`parseError` is `JSON.parse` throwing a SyntaxError on the given text;
`typeError` and `referenceError` are runtime errors of the language. -/
inductive JSError where
  | errorThrow (msg : String) : JSError
  | fsError (op : String) (path : String) : JSError
  | parseError (text : String) : JSError
  | typeError (msg : String) : JSError
  | referenceError (name : String) : JSError
deriving DecidableEq

/-- The `creds` argument of the constructor, by the distinctions the code at
line 87 can make: `null` (also the default), a boxed String object, a
primitive string, or any other value. -/
inductive CredsArg where
  | null : CredsArg
  | strObj (s : String) : CredsArg
  | strPrim (s : String) : CredsArg
  | otherVal : CredsArg
deriving DecidableEq

/-- The runtime environment of one construction: filesystem state and the
JSON parser.
`stat p` is `some isDir` when the path `p` exists with
`isDirectory() = isDir`, `none` when it does not exist;
`readableOk p` tells whether the file `p` is readable;
`readFile p` is the text `fs.readFileSync(p)` returns, `none` when it throws;
`jsonParse t` is the value `JSON.parse(t)` returns, `none` when it throws.
The `stat` and `readableOk` fields record the filesystem so that theorems
can state which paths name directories or readable files; the program
itself never reaches a successful `statSync` or `accessSync` call, because
its only such calls (lines 92 and 99) sit behind the boxed-String argument
that the fs path validation rejects. -/
structure Env where
  stat : String → Option Bool
  readableOk : String → Bool
  readFile : String → Option String
  jsonParse : String → Option JSVal

/-- A console or readline effect of the program. -/
inductive Effect where
  | consoleLog (s : String) : Effect
  | consoleError (s : String) : Effect
  | promptQuestion (s : String) : Effect
deriving DecidableEq

/-- Lines 87 to 107 of src/GoogleOAuth2CLI.js: resolve the `creds` argument
into the pair `(CredsPath, TokenPath)`.
- Only `null` or a boxed String passes the gate at line 87; anything else
  throws `Invalid creds parameter.` (line 118).
- `null` is falsy, so the block at lines 91 to 105 is skipped and the
  default `./` is kept.
- A boxed String is truthy, so `fs.statSync(creds)` at line 92 runs — and
  throws `TypeError ERR_INVALID_ARG_TYPE` at once, because on every Node
  able to parse this file the fs path validation rejects a boxed String.
  The directory case of line 94, the `accessSync` test of line 99 (whose
  truthiness is inverted anyway: a successful `accessSync` returns the
  falsy `undefined`) and the throw of line 102 are all dead code, and the
  filesystem is never consulted. -/
def resolvePaths (_env : Env) (creds : CredsArg) : Except JSError (String × String) :=
  match creds with
  | .strPrim _ => .error (.errorThrow "Invalid creds parameter.")
  | .otherVal => .error (.errorThrow "Invalid creds parameter.")
  | .null => .ok ("./" ++ "creds.json", "./" ++ "token.json")
  | .strObj _ =>
      .error (.typeError
        "ERR_INVALID_ARG_TYPE: The \"path\" argument must be of type string or an instance of Buffer or URL. Received an instance of String")

/-- Lines 110 to 112 of src/GoogleOAuth2CLI.js: the destructuring assignment
over the `installed` member of the parsed credentials file. Destructuring
`null` or `undefined` throws a TypeError. Otherwise `client_id` and
`client_secret` are read (and assigned to `this.ClientID`,
`this.ClientSecret`), then `redirect_uris` is read and destructured by the
array pattern `[RedirectURI]`: a non-iterable value throws a TypeError, and
an iterable one (array or string) reaches the assignment to the bare
identifier `RedirectURI`, which is declared nowhere in the file, so the
strict-mode class body throws `ReferenceError` there. No run of this
statement completes normally. -/
def destructureInstalled (installed : JSVal) :
    Except JSError (JSVal × JSVal × JSVal) :=
  match installed with
  | .null => .error (.typeError "Cannot destructure null")
  | .undefined => .error (.typeError "Cannot destructure undefined")
  | v =>
      match v.field "redirect_uris" with
      | .arr _ => .error (.referenceError "RedirectURI")
      | .str _ => .error (.referenceError "RedirectURI")
      | _ => .error (.typeError "redirect_uris is not iterable")

/-- Property read `v.name` where `v` may be `null` or `undefined`, as in
`JSON.parse(..).installed` at line 111. -/
def JSVal.getProp : JSVal → String → Except JSError JSVal
  | .null, name => .error (.typeError ("Cannot read properties of null (reading " ++ name ++ ")"))
  | .undefined, name => .error (.typeError ("Cannot read properties of undefined (reading " ++ name ++ ")"))
  | v, name => .ok (v.field name)

/-- The wrapped googleapis OAuth2 client as this repository configures it:
the three constructor arguments of line 121 and the credentials set by
`setCredentials`. -/
structure OAuth2Client where
  clientId : JSVal
  clientSecret : JSVal
  redirectUri : JSVal
  credentials : Option JSVal

/-- Method names the wrapped googleapis OAuth2 client provides among those
this repository mentions. `generateAuthUrl`, `getToken` and `setCredentials`
are methods of the library client; `getNewTokenCLI` is not, it is defined
only on `GoogleOAuth2CLI` itself. -/
def oauth2ClientMethods : List String := ["generateAuthUrl", "getToken", "setCredentials"]

/-- The instance state a completed construction would carry: the properties
the constructor assigns on `this`. -/
structure CLIState where
  Scopes : JSVal
  CredsPath : String
  TokenPath : String
  ClientID : JSVal
  ClientSecret : JSVal
  Token : JSVal
  goa2 : OAuth2Client

/-- Lines 109 to 112 of src/GoogleOAuth2CLI.js as one unit: read the
credentials file (`readFileSync`, throws when it fails), parse it
(`JSON.parse`, throws on bad JSON), read its `installed` member and run the
destructuring assignment over it (see `destructureInstalled`). Nothing here
is inside a try/catch, so every failure propagates out of the
constructor. -/
def loadCredsFile (env : Env) (credsPath : String) :
    Except JSError (JSVal × JSVal × JSVal) :=
  match env.readFile credsPath with
  | none => .error (.fsError "readFileSync" credsPath)
  | some text =>
      match env.jsonParse text with
      | none => .error (.parseError text)
      | some parsed =>
          match JSVal.getProp parsed "installed" with
          | .error e => .error e
          | .ok installed => destructureInstalled installed

/-- Lines 82 to 129 of src/GoogleOAuth2CLI.js: the constructor body, as the
pair of the console effects it performs and its result (the constructed
instance state, or the error it throws).
After path resolution the credentials file is loaded (see `loadCredsFile`).
The token load at lines 115 and 116 is inside try/catch, so any failure
there leaves `this.Token = null`. Line 121 builds the wrapped client passing
`this.RedirectUI`, a property that is assigned nowhere, hence `undefined`.
Line 124 calls `this.goa2.getNewTokenCLI()`; the wrapped client has no such
method (see `oauth2ClientMethods`), so that call throws a TypeError. -/
def construct (env : Env) (scopes : JSVal) (creds : CredsArg) :
    List Effect × Except JSError CLIState :=
  match resolvePaths env creds with
  | .error e => ([], .error e)
  | .ok (credsPath, tokenPath) =>
      match loadCredsFile env credsPath with
      | .error e => ([], .error e)
      | .ok (cid, csec, _redirectURI) =>
                      let token : JSVal :=
                        match env.readFile tokenPath with
                        | none => .null
                        | some t => (env.jsonParse t).getD .null
                      let goa2 : OAuth2Client :=
                        { clientId := cid, clientSecret := csec,
                          redirectUri := .undefined, credentials := none }
                      if token.truthy then
                        ([], .ok { Scopes := scopes, CredsPath := credsPath,
                                   TokenPath := tokenPath, ClientID := cid,
                                   ClientSecret := csec, Token := token,
                                   goa2 := { goa2 with credentials := some token } })
                      else
                        if oauth2ClientMethods.contains "getNewTokenCLI" then
                          ([], .error (.typeError "unreachable: the library client has no getNewTokenCLI"))
                        else
                          ([], .error (.typeError "this.goa2.getNewTokenCLI is not a function"))

/-- Method names defined by class GoogleOAuth2CLI (lines 82 and 134), plus
the instance properties its constructor assigns. `getToken` is in neither
list: it is a method of the wrapped client, not of this class. -/
def cliOwnNames : List String :=
  ["constructor", "getNewTokenCLI",
   "Scopes", "CredsPath", "TokenPath", "ClientID", "ClientSecret",
   "Token", "GOA2", "goa2"]

/-- Lines 139 to 153 of src/GoogleOAuth2CLI.js: the body of the
`rl.question` callback inside `getNewTokenCLI`, run when the user has
entered an authorization code. It closes the readline interface and calls
`this.getToken(code, ..)` where `this` is the GoogleOAuth2CLI instance;
`getToken` is not among `cliOwnNames`, so the lookup yields `undefined` and
the call throws a TypeError. The token exchange, `setCredentials`, and the
token write with its error logging at lines 141 to 151 sit inside the
callback passed to that call and are therefore never reached. -/
def getNewTokenCLI_onAnswer (code : String) : List Effect × Except JSError JSVal :=
  if cliOwnNames.contains "getToken" then
    ([], .ok (.str code))
  else
    ([], .error (.typeError "this.getToken is not a function"))

/-- The destructuring statement at lines 110 to 112 never completes
normally: every branch throws (a TypeError for a non-iterable
`redirect_uris`, the strict-mode ReferenceError for the undeclared
`RedirectURI` otherwise). -/
theorem destructureInstalled_not_ok (v : JSVal) (r : JSVal × JSVal × JSVal) :
    destructureInstalled v ≠ Except.ok r := by
  intro h
  unfold destructureInstalled at h
  split at h
  · exact Except.noConfusion h
  · exact Except.noConfusion h
  · split at h <;> exact Except.noConfusion h

/-- The credentials load of lines 109 to 112 never completes normally:
either the read, the parse or the member access throws, or control reaches
the destructuring, which always throws. -/
theorem loadCredsFile_not_ok (env : Env) (p : String) (r : JSVal × JSVal × JSVal) :
    loadCredsFile env p ≠ Except.ok r := by
  intro h
  unfold loadCredsFile at h
  split at h
  · exact Except.noConfusion h
  · split at h
    · exact Except.noConfusion h
    · split at h
      · exact Except.noConfusion h
      · exact destructureInstalled_not_ok _ _ h

/-- Every run of the constructor throws: each stage up to the creds
destructuring either throws or passes control on, and the destructuring
itself always throws. In particular no effect is ever emitted and no
instance is ever produced. -/
theorem construct_result_is_error (env : Env) (scopes : JSVal) (creds : CredsArg) :
    ∃ e, construct env scopes creds = ([], Except.error e) := by
  unfold construct
  split
  · exact ⟨_, rfl⟩
  · split
    · exact ⟨_, rfl⟩
    · rename_i heq
      exact absurd heq (loadCredsFile_not_ok _ _ _)

/-- Environment for C1: `confdir` exists and is a directory; nothing else
is accessible. -/
def envC1 : Env :=
  { stat := fun p => if p == "confdir" then some true else none,
    readableOk := fun _ => false,
    readFile := fun _ => none,
    jsonParse := fun _ => none }

/-- C1: evaluation at the failing input, in both representations of a
creds argument naming the existing directory `confdir`. A primitive string
fails the gate at line 87 and line 118 throws `Invalid creds parameter.`;
a boxed String reaches line 92, where `fs.statSync` throws
`TypeError ERR_INVALID_ARG_TYPE` on the boxed path. Neither run assigns
CredsPath or TokenPath, so no creds argument ever resolves the claimed
dir/creds.json and dir/token.json. -/
theorem C1_directory_never_resolved :
    envC1.stat "confdir" = some true ∧
    resolvePaths envC1 (CredsArg.strPrim "confdir") =
      Except.error (JSError.errorThrow "Invalid creds parameter.") ∧
    resolvePaths envC1 (CredsArg.strObj "confdir") =
      Except.error (JSError.typeError
        "ERR_INVALID_ARG_TYPE: The \"path\" argument must be of type string or an instance of Buffer or URL. Received an instance of String") :=
  ⟨rfl, rfl, rfl⟩

/-- Environment for C2: `myapp` exists and is not a directory, and
`myapp_creds.json` is readable. -/
def envC2 : Env :=
  { stat := fun p => if p == "myapp" then some false else none,
    readableOk := fun p => p == "myapp_creds.json",
    readFile := fun _ => none,
    jsonParse := fun _ => none }

/-- C2: evaluation at the failing input. Even with `myapp` an existing
non-directory and `myapp_creds.json` readable, the constructor neither
resolves the prefixed paths nor raises the line-102 configuration error:
`fs.statSync` at line 92 throws `TypeError ERR_INVALID_ARG_TYPE` on the
boxed String first, so the whole prefix convention of lines 95 to 104 —
including the `accessSync` test at line 99, whose truthiness is inverted
in any case — is dead code. -/
theorem C2_prefix_convention_unreachable :
    envC2.stat "myapp" = some false ∧
    envC2.readableOk "myapp_creds.json" = true ∧
    resolvePaths envC2 (CredsArg.strObj "myapp") =
      Except.error (JSError.typeError
        "ERR_INVALID_ARG_TYPE: The \"path\" argument must be of type string or an instance of Buffer or URL. Received an instance of String") :=
  ⟨rfl, rfl, rfl⟩

/-- C10: a primitive string — the type the documented signature accepts —
fails the `creds === null || creds instanceof String` gate at line 87, so
the constructor throws `Invalid creds parameter.` for every environment,
before consulting the filesystem at all; the same holds for every other
non-null, non-String-object value. Only `null` or a boxed String reaches
the path-resolution logic. -/
theorem C10_primitive_string_rejected :
    (∀ (env : Env) (scopes : JSVal) (s : String),
        construct env scopes (CredsArg.strPrim s) =
          ([], Except.error (JSError.errorThrow "Invalid creds parameter."))) ∧
    (∀ (env : Env) (scopes : JSVal),
        construct env scopes CredsArg.otherVal =
          ([], Except.error (JSError.errorThrow "Invalid creds parameter."))) :=
  ⟨fun _ _ _ => rfl, fun _ _ => rfl⟩

/-- A credentials file content of the documented shape
`{ installed: { client_id, client_secret, redirect_uris: [uri] } }`. -/
def credsJson (cid csec ruri : String) : JSVal :=
  JSVal.obj [("installed", JSVal.obj
    [("client_id", JSVal.str cid),
     ("client_secret", JSVal.str csec),
     ("redirect_uris", JSVal.arr [JSVal.str ruri])])]

/-- An environment whose current directory holds `./creds.json` with the
given text (when present) and `./token.json` with the given text (when
present), under the given JSON parser. No other path exists. -/
def mkEnv (credsText tokenText : Option String)
    (parse : String → Option JSVal) : Env :=
  { stat := fun _ => none,
    readableOk := fun _ => false,
    readFile := fun p =>
      if p == "./creds.json" then credsText
      else if p == "./token.json" then tokenText
      else none,
    jsonParse := parse }

/-- Environment for C3: a valid credentials file, no token file. -/
def envC3 : Env := mkEnv (some "credsC3") none
  (fun t => if t == "credsC3"
    then some (credsJson "id3" "sec3" "http://localhost:3000") else none)

/-- C3: evaluation at the failing input. The token file is absent (so
`this.Token` would be null), yet the constructor performs no console effect
and displays no authorization URL: it throws the strict-mode ReferenceError
at the creds destructuring of line 110 first; and the interactive call at
line 124 targets `this.goa2.getNewTokenCLI`, a method the wrapped client
does not have. -/
theorem C3_interactive_flow_never_runs :
    envC3.readFile "./token.json" = none ∧
    construct envC3 (JSVal.str "https://www.googleapis.com/auth/spreadsheets")
        CredsArg.null =
      ([], Except.error (JSError.referenceError "RedirectURI")) :=
  ⟨rfl, rfl⟩

/-- Environment for C4: a valid credentials file carrying a first redirect
URI. -/
def envC4 : Env := mkEnv (some "credsC4") none
  (fun t => if t == "credsC4"
    then some (credsJson "id4" "sec4" "https://cb.example/oauth") else none)

/-- C4: evaluation at the failing input. The loaded credentials record has
`https://cb.example/oauth` as the first element of `redirect_uris`, but
that value is never handed to the wrapped client: the destructuring binds
it to the undeclared bare identifier `RedirectURI` and throws, and the
client construction at line 121 would read `this.RedirectUI`, a property
that is never assigned. -/
theorem C4_redirect_uri_never_used :
    JSVal.field (JSVal.field (credsJson "id4" "sec4" "https://cb.example/oauth")
        "installed") "redirect_uris" =
      JSVal.arr [JSVal.str "https://cb.example/oauth"] ∧
    construct envC4 (JSVal.str "s4") CredsArg.null =
      ([], Except.error (JSError.referenceError "RedirectURI")) :=
  ⟨rfl, rfl⟩

/-- A persisted token record such as the wrapped client would produce. -/
def tokenJsonC5 : JSVal :=
  JSVal.obj [("access_token", JSVal.str "atC5"),
             ("refresh_token", JSVal.str "rtC5"),
             ("expiry_date", JSVal.num 1700000000)]

/-- Environment for C5: a valid credentials file and a well-formed token
file. -/
def envC5 : Env := mkEnv (some "credsC5") (some "tokenC5")
  (fun t =>
    if t == "credsC5" then some (credsJson "id5" "sec5" "http://localhost:5000/cb")
    else if t == "tokenC5" then some tokenJsonC5
    else none)

/-- C5: evaluation at the failing input. The token file exists and parses,
and indeed no console effect is emitted, but the constructor never
configures the wrapped client with the loaded token: it throws at the
creds destructuring of line 110 before the token branch of line 126 is
reached. -/
theorem C5_loaded_token_never_configured :
    envC5.readFile "./token.json" = some "tokenC5" ∧
    envC5.jsonParse "tokenC5" = some tokenJsonC5 ∧
    construct envC5 (JSVal.str "s5") CredsArg.null =
      ([], Except.error (JSError.referenceError "RedirectURI")) :=
  ⟨rfl, rfl, rfl⟩

/-- C6: the claimed round trip cannot happen. Even when the resolved token
path holds a readable, parseable persisted token, constructing an instance
with that locator throws instead of reproducing any credential
configuration (and, by `construct_result_is_error`, no construction ever
succeeds, so the interactive flow cannot have persisted a token in the
first place). -/
theorem C6_reload_never_reconfigures (env : Env) (scopes : JSVal)
    (creds : CredsArg) (p t : String)
    (_hres : resolvePaths env creds = Except.ok (p, t))
    (_htok : ∃ c, env.readFile t = some c ∧ ∃ v, env.jsonParse c = some v) :
    ∃ e, construct env scopes creds = ([], Except.error e) :=
  construct_result_is_error env scopes creds

/-- A persisted token record for the C6 witness. -/
def tokenJsonC6 : JSVal :=
  JSVal.obj [("access_token", JSVal.str "atC6"),
             ("refresh_token", JSVal.str "rtC6")]

/-- Environment for the C6 witness: valid creds file and a persisted token
file at the resolved token path. -/
def envC6 : Env := mkEnv (some "credsC6") (some "tokenC6")
  (fun t =>
    if t == "credsC6" then some (credsJson "id6" "sec6" "http://localhost:6000/cb")
    else if t == "tokenC6" then some tokenJsonC6
    else none)

/-- C6 witness: the hypotheses hold at a concrete environment with a
persisted token, and construction still fails. -/
theorem C6_reload_never_reconfigures_witness :
    ∃ e, construct envC6 (JSVal.str "s6") CredsArg.null =
      ([], Except.error e) :=
  C6_reload_never_reconfigures envC6 (JSVal.str "s6") CredsArg.null
    ("./" ++ "creds.json") ("./" ++ "token.json") rfl
    ⟨"tokenC6", rfl, tokenJsonC6, rfl⟩

/-- C7: evaluation at the failing input. Whatever authorization code the
user would enter, the callback throws before any token exchange starts, so
no token is ever obtained interactively, no token write is ever attempted,
and the write-failure logging at lines 147 to 150 is unreachable. -/
theorem C7_write_failure_handler_unreachable :
    getNewTokenCLI_onAnswer "4/0AbCdEfGh" =
      ([], Except.error (JSError.typeError "this.getToken is not a function")) :=
  rfl

/-- Classification of a thrown error as an access or parse failure of the
credentials source: a `readFileSync` throw or a `JSON.parse` throw. -/
def isParseOrAccessError : JSError → Bool
  | .fsError "readFileSync" _ => true
  | .parseError _ => true
  | _ => false

/-- When every readable content of the credentials path is unparseable (in
particular when the path is unreadable), the credentials load of lines 109
to 112 fails with exactly an access or parse error. -/
theorem loadCredsFile_bad (env : Env) (p : String)
    (hbad : ∀ c, env.readFile p = some c → env.jsonParse c = none) :
    ∃ e, loadCredsFile env p = Except.error e ∧ isParseOrAccessError e = true := by
  unfold loadCredsFile
  cases hf : env.readFile p with
  | none => exact ⟨_, rfl, rfl⟩
  | some c =>
      simp only [hbad c hf]
      exact ⟨_, rfl, rfl⟩

/-- C8: for every environment and creds argument whose path resolution
succeeds, if the credentials source is missing or holds malformed JSON
then the constructor fails with that access or parse error: the result of
the whole construction is exactly the thrown error — nothing catches it —
and no effect is performed. -/
theorem C8_creds_source_errors_propagate (env : Env) (scopes : JSVal)
    (creds : CredsArg) (p t : String)
    (hres : resolvePaths env creds = Except.ok (p, t))
    (hbad : ∀ c, env.readFile p = some c → env.jsonParse c = none) :
    ∃ e, construct env scopes creds = ([], Except.error e) ∧
      isParseOrAccessError e = true := by
  obtain ⟨e, he, hcls⟩ := loadCredsFile_bad env p hbad
  refine ⟨e, ?_, hcls⟩
  unfold construct
  rw [hres]
  simp only [he]

/-- Environment for the C8 witness: no file is readable at all. -/
def envC8 : Env := mkEnv none none (fun _ => none)

/-- C8 witness: with a missing credentials file, construction fails with an
access or parse error. -/
theorem C8_creds_source_errors_propagate_witness :
    ∃ e, construct envC8 (JSVal.str "s8") CredsArg.null =
      ([], Except.error e) ∧ isParseOrAccessError e = true :=
  C8_creds_source_errors_propagate envC8 (JSVal.str "s8") CredsArg.null
    ("./" ++ "creds.json") ("./" ++ "token.json") rfl
    (fun c h => by exact Option.noConfusion h)

/-- Environment for C9: a valid credentials file at ./creds.json and no
./token.json. -/
def envC9 : Env := mkEnv (some "credsC9") none
  (fun t => if t == "credsC9"
    then some (credsJson "id9" "sec9" "http://localhost:9000/cb") else none)

/-- C9: for a null (or omitted) creds argument the paths do resolve to
./creds.json and ./token.json, in every environment (first half of the
claim). But with ./token.json absent the interactive authorization path is
not triggered: the constructor throws at the creds destructuring of line
110, and the call at line 124 targets a method the wrapped client does not
have. -/
theorem C9_null_locator_paths_but_no_interactive :
    (∀ env : Env, resolvePaths env CredsArg.null =
        Except.ok ("./creds.json", "./token.json")) ∧
    envC9.readFile "./token.json" = none ∧
    construct envC9 (JSVal.str "s9") CredsArg.null =
      ([], Except.error (JSError.referenceError "RedirectURI")) :=
  ⟨fun _ => rfl, rfl, rfl⟩
